import Mathlib

/-
Verification of the BabbleDiscord ThetaCog repository
(src/ThetaCog/theta.py, src/ThetaCog/thetatypes.py, src/ThetaCog/thetaerrors.py).

The development is a shallow embedding of the data model and the operations of
the cog.  External collaborators (the Discord chat platform, the host bot
configuration store, the Theta HTTP API) are modelled as explicit environment
records that the embedded functions consume; every piece of control flow that
belongs to the repository itself is translated from the source.

Modelling conventions, stated once here:
  * Python dictionaries holding guild settings are the GuildConf record; the
    host configuration store is an external collaborator and is modelled as a
    total function from guild ids to GuildConf.
  * Python exceptions are surfaced as explicit result constructors
    (PyResult.exn, Except.error, TickResult.suppressed) rather than escaping.
  * The framework helper escape (mass-mention escaping) and the random
    anti-cache suffix of rnd are external glue whose exact output no claim
    depends on; they are modelled as the identity and as a fixed suffix.
  * Timestamps are integer seconds.
-/

/-- A Discord message reference as held in a subscription message cache:
the source keeps full discord.Message objects and uses their id, channel id
and guild (theta.py lines 606 to 611, thetatypes.py lines 56 to 58). -/
structure DMessage where
  id : Nat
  channelId : Nat
  guildId : Nat
  deriving Repr, DecidableEq

/-- The state of one ThetaStream subscription (thetatypes.py lines 34 to 72):
fields id, name, channels and the private message cache; the type field is
set to the class name by the constructor.  The private credential fields
_client_id and _bearer play no role in any claim about state and are kept
out of the state record (they are passed separately where the source reads
them). -/
structure ThetaStream where
  id : Option String
  name : Option String
  channels : List Nat
  messagesCache : List DMessage
  type : String
  deriving Repr, DecidableEq

/-- A Discord channel as the bot resolves it (bot.get_channel): its id and
the guild that owns it. -/
structure DChannel where
  id : Nat
  guildId : Nat
  deriving Repr, DecidableEq

/-- A guild role as read by _get_mention_str: its per-role mention flag from
the configuration store and the mention string it renders to. -/
structure GuildRole where
  mention : Bool
  mentionString : String
  deriving Repr, DecidableEq

/-- A value stored under a guild message-template key.  The registered
defaults are booleans (theta.py lines 42 to 43) while the thetaset message
commands store strings, so the stored value is either kind. -/
inductive ConfValue
  | bool (b : Bool)
  | str (s : String)
  deriving Repr, DecidableEq

/-- Python truthiness of a template configuration value. -/
def ConfValue.truthy : ConfValue → Bool
  | .bool b => b
  | .str s => !(s == "")

/-- Per-guild settings read by the polling loop, together with the guild
role list consulted by _get_mention_str (theta.py lines 38 to 45, 654
to 677). -/
structure GuildConf where
  autodelete : Bool
  mention_everyone : Bool
  mention_here : Bool
  live_message_mention : ConfValue
  live_message_nomention : ConfValue
  ignore_reruns : Bool
  roles : List GuildRole
  deriving Repr, DecidableEq

/-- The registered guild defaults of the cog (theta.py lines 38 to 45). -/
def defaultGuildConf : GuildConf :=
  { autodelete := false
    mention_everyone := true
    mention_here := false
    live_message_mention := .bool true
    live_message_nomention := .bool false
    ignore_reruns := false
    roles := [] }

/-- The chat-platform and configuration-store environment one polling tick
runs against: channel resolution (bot.get_channel), the guild settings, and
the message id the platform assigns to a send into a given channel. -/
structure BotEnv where
  getChannel : Nat → Option DChannel
  guildConf : Nat → GuildConf
  newMsgId : Nat → Nat

/-- Python str of an optional string field (str of None is the text None). -/
def optStr : Option String → String
  | Option.none => "None"
  | some s => s

/-- The framework escape helper applied to the stream name in the default
alert texts is an external collaborator; no claim depends on the escaped
text, so it is modelled as the identity. -/
def escapeStr (s : String) : String := s

/-- Python str of a ThetaStream object, via its repr
(thetatypes.py lines 182 to 183). -/
def ThetaStream.pyStr (s : ThetaStream) : String :=
  "<ThetaStream: " ++ optStr s.name ++ " (ID: " ++ optStr s.id ++ ")>"

/-- The mention string built by _get_mention_str (theta.py lines 654 to 677):
joins with spaces the everyone mention, the here mention and the mention of
every role whose mention flag is set.  The temporary mentionable edits have
no bearing on any claim and the edits themselves are external calls, so only
the returned string is modelled. -/
def mention_str (conf : GuildConf) : String :=
  String.intercalate " "
    ((if conf.mention_everyone then ["@everyone"] else [])
      ++ (if conf.mention_here then ["@here"] else [])
      ++ (conf.roles.filter (fun r => r.mention)).map (fun r => r.mentionString))

/-- The scan of one replacement field of a Python format string: the
characters up to the closing brace, together with the remainder of the
template.  A nested opening brace or a missing closing brace is a failure
(Python raises ValueError). -/
def spanToClose : List Char → Option (String × List Char)
  | [] => Option.none
  | '}' :: rest => some ("", rest)
  | '{' :: _ => Option.none
  | c :: rest =>
    match spanToClose rest with
    | some p => some (String.mk (c :: p.1.data), p.2)
    | Option.none => Option.none

/-- Python str.format over a template, the keyword arguments supplied
through the resolve function: doubled braces render the literal brace, a
replacement field is looked up through resolve, and a failure anywhere
makes the whole call raise, yielding none: a stray single brace is a
ValueError, an unresolvable field a KeyError or AttributeError.  The fuel
is the character count and only bounds the recursion; every step consumes
at least one character, so the fuel never runs out before the end of the
template. -/
def pyFormatCore (resolve : String → Option String) :
    Nat → List Char → Option String
  | _, [] => some ""
  | 0, _ :: _ => Option.none
  | fuel + 1, '{' :: '{' :: rest =>
    match pyFormatCore resolve fuel rest with
    | some s => some ("\x7b" ++ s)
    | Option.none => Option.none
  | fuel + 1, '}' :: '}' :: rest =>
    match pyFormatCore resolve fuel rest with
    | some s => some ("\x7d" ++ s)
    | Option.none => Option.none
  | fuel + 1, '{' :: rest =>
    match spanToClose rest with
    | Option.none => Option.none
    | some (field, rest2) =>
      match resolve field with
      | Option.none => Option.none
      | some v =>
        match pyFormatCore resolve fuel rest2 with
        | some s => some (v ++ s)
        | Option.none => Option.none
  | _ + 1, '}' :: _ => Option.none
  | fuel + 1, c :: rest =>
    match pyFormatCore resolve fuel rest with
    | some s => some (String.mk [c] ++ s)
    | Option.none => Option.none

def pyFormat (resolve : String → Option String) (tpl : String) :
    Option String :=
  pyFormatCore resolve tpl.data.length tpl.data

/-- Python str of the attribute access theta.attr on a ThetaStream inside a
replacement field.  The public attributes name, id, type and channels
render as their Python str; an unknown attribute raises AttributeError
(none).  The underscore attributes hold external library objects and
short-lived credentials, and a template naming them is conservatively
treated as failing too. -/
def formatAttrOfTheta (st : ThetaStream) (attr : String) : Option String :=
  if attr == "name" then some (optStr st.name)
  else if attr == "id" then some (optStr st.id)
  else if attr == "type" then some st.type
  else if attr == "channels" then
    some ("[" ++ String.intercalate ", " (st.channels.map toString) ++ "]")
  else Option.none

/-- Resolution of a replacement field against the single keyword argument
theta of the format call on theta.py line 639: the bare name formats the
stream object through its repr, a dotted name accesses the attribute, and
any other field raises KeyError, the mention placeholder included, since
that call passes no mention keyword.  Conversion and format-spec suffixes
and indexing inside a field are outside the model and conservatively
treated as failing (they do not match any resolvable field name). -/
def resolveThetaField (st : ThetaStream) (field : String) : Option String :=
  if field == "theta" then some st.pyStr
  else
    match field.data with
    | 't' :: 'h' :: 'e' :: 't' :: 'a' :: '.' :: rest =>
      formatAttrOfTheta st (String.mk rest)
    | _ => Option.none

/-- Resolution of a replacement field against the two keyword arguments
mention and theta of the format call on theta.py line 628. -/
def resolveMentionField (mention : String) (st : ThetaStream)
    (field : String) : Option String :=
  if field == "mention" then some mention
  else resolveThetaField st field

/-- Composition of the alert text for one channel (theta.py lines 625 to
645).  Returns none exactly when the source raises, upon which the
surrounding suppress block of check_theta aborts the remaining channels:
the template value is consulted for truthiness and then format is called on
it; calling format on a boolean raises AttributeError (the registered
default for live_message_mention is the boolean true), and format on a
string template raises on a stray brace or an unresolvable replacement
field, where the mention branch passes the keywords mention and theta and
the no-mention branch only theta. -/
def composeContent (conf : GuildConf) (mention : String) (st : ThetaStream) :
    Option String :=
  if mention != "" then
    if conf.live_message_mention.truthy then
      match conf.live_message_mention with
      | .str tpl => pyFormat (resolveMentionField mention st) tpl
      | .bool _ => Option.none
    else
      some (mention ++ ", " ++ escapeStr (optStr st.name) ++ " is now live!")
  else
    if conf.live_message_nomention.truthy then
      match conf.live_message_nomention with
      | .str tpl => pyFormat (resolveThetaField st) tpl
      | .bool _ => Option.none
    else
      some (escapeStr (optStr st.name) ++ " is now live!")

/-- A message send performed by the polling loop: the target channel and the
composed text content. -/
structure SendRec where
  channelId : Nat
  content : String
  deriving Repr, DecidableEq

/-- The channel loop of the online branch of check_theta (theta.py lines 616
to 652).  For each subscribed channel id: resolve the channel and skip the
id when the bot cannot (line 617 to 619); skip when the guild ignores reruns
and the broadcast is a rerun (lines 620 to 622); compose the alert text; a
composition failure raises and the per-subscription suppress block ends the
loop (modelled by the final Bool component); otherwise send, record the new
message in the cache, and call save_theta.  Returns the appended cache
entries, the sends, the number of save_theta calls and the aborted flag. -/
def processChannels (env : BotEnv) (st : ThetaStream) (isRerun : Bool) :
    List Nat → List DMessage × List SendRec × Nat × Bool
  | [] => ([], [], 0, false)
  | cid :: rest =>
    match env.getChannel cid with
    | Option.none => processChannels env st isRerun rest
    | some ch =>
      let conf := env.guildConf ch.guildId
      if conf.ignore_reruns && isRerun then
        processChannels env st isRerun rest
      else
        match composeContent conf (mention_str conf) st with
        | Option.none => ([], [], 0, true)
        | some content =>
          let m : DMessage := ⟨env.newMsgId cid, cid, ch.guildId⟩
          let r := processChannels env st isRerun rest
          (m :: r.1, ⟨cid, content⟩ :: r.2.1, r.2.2.1 + 1, r.2.2.2)

/-- The observable effect of one subscription iteration of check_theta: the
new subscription state, the messages sent, the messages deleted, how many
times save_theta ran, and whether an exception was swallowed by the
per-subscription suppress block. -/
structure TickResult where
  stream : ThetaStream
  sent : List SendRec
  deleted : List DMessage
  saves : Nat
  suppressed : Bool
  deriving Repr, DecidableEq

/-- The outcome of the liveness check for one subscription during a tick:
online with the rerun flag, the OfflineStream exception, or any other
exception (StreamNotFound, InvalidThetaCredentials, APIError, or an
arbitrary error inside the check). -/
inductive Outcome
  | online (isRerun : Bool)
  | offline
  | failure
  deriving Repr, DecidableEq

/-- One subscription iteration of check_theta (theta.py lines 594 to 652).
On OfflineStream: nothing happens when the message cache is empty (lines 604
to 605); otherwise each cached message whose guild has autodelete enabled is
deleted (individual failures are swallowed; deletion itself is an external
call modelled as succeeding), the cache is cleared and save_theta runs
(lines 606 to 612).  On an online result: nothing happens when the cache is
already non-empty (lines 614 to 615); otherwise the channel loop runs.  Any
other exception is swallowed with no state change (line 595). -/
def check_theta_one (env : BotEnv) (st : ThetaStream) : Outcome → TickResult
  | .offline =>
    if st.messagesCache.isEmpty then ⟨st, [], [], 0, false⟩
    else
      ⟨{ st with messagesCache := [] }, [],
        st.messagesCache.filter (fun m => (env.guildConf m.guildId).autodelete),
        1, false⟩
  | .online isRerun =>
    if !st.messagesCache.isEmpty then ⟨st, [], [], 0, false⟩
    else
      let r := processChannels env st isRerun st.channels
      ⟨{ st with messagesCache := r.1 }, r.2.1, [], r.2.2.1, r.2.2.2⟩
  | .failure => ⟨st, [], [], 0, true⟩

/-- A subscribed channel id actually receives an alert during the online
branch: the bot resolves it, the rerun filter does not skip it, and the
alert text composes without raising. -/
def channelDelivers (env : BotEnv) (st : ThetaStream) (isRerun : Bool)
    (cid : Nat) : Prop :=
  ∃ ch, env.getChannel cid = some ch
    ∧ ((env.guildConf ch.guildId).ignore_reruns && isRerun) = false
    ∧ (composeContent (env.guildConf ch.guildId)
        (mention_str (env.guildConf ch.guildId)) st).isSome = true

theorem processChannels_all_deliver (env : BotEnv) (st : ThetaStream)
    (isRerun : Bool) (l : List Nat)
    (h : ∀ cid ∈ l, channelDelivers env st isRerun cid) :
    (processChannels env st isRerun l).1.map DMessage.channelId = l
    ∧ (processChannels env st isRerun l).2.1.map SendRec.channelId = l := by
  induction l with
  | nil => exact ⟨rfl, rfl⟩
  | cons cid rest ih =>
    obtain ⟨ch, hch, hrr, hcc⟩ := h cid (List.mem_cons_self cid rest)
    have hrest := ih (fun c hc => h c (List.mem_cons_of_mem cid hc))
    obtain ⟨content, hcontent⟩ := Option.isSome_iff_exists.mp hcc
    simp only [processChannels, hch, hrr, Bool.false_eq_true, if_false,
      hcontent, List.map_cons]
    exact ⟨by rw [hrest.1], by rw [hrest.2]⟩

/-- C1 (amended): given a subscription whose message cache is empty, an
online outcome sends exactly one message per subscribed channel and the
cache grows by exactly one reference per subscribed channel, provided every
subscribed channel delivers: the bot resolves it, the guild rerun filter
does not skip it and the alert text composes without raising. -/
theorem online_sends_one_per_deliverable_channel (env : BotEnv)
    (st : ThetaStream) (isRerun : Bool)
    (h0 : st.messagesCache = [])
    (h : ∀ cid ∈ st.channels, channelDelivers env st isRerun cid) :
    (check_theta_one env st (.online isRerun)).sent.map SendRec.channelId
        = st.channels
    ∧ (check_theta_one env st (.online isRerun)).stream.messagesCache.map
        DMessage.channelId = st.channels := by
  have hall := processChannels_all_deliver env st isRerun st.channels h
  simp only [check_theta_one, h0, List.isEmpty_nil, Bool.not_true,
    Bool.false_eq_true, if_false]
  exact ⟨hall.2, hall.1⟩

/-- Environment used by the witnesses of the polling-loop theorems: every
channel id resolves to a channel of guild 1, and guild settings are the
defaults except that mentions are disabled so the default no-mention alert
text is used. -/
def witnessConf : GuildConf :=
  { defaultGuildConf with mention_everyone := false }

def witnessEnv : BotEnv :=
  { getChannel := fun c => some ⟨c, 1⟩
    guildConf := fun _ => witnessConf
    newMsgId := fun c => c + 100 }

def witnessStream : ThetaStream :=
  { id := some "77", name := some "alice", channels := [10, 11],
    messagesCache := [], type := "ThetaStream" }

theorem online_sends_witness :
    (check_theta_one witnessEnv witnessStream (.online false)).sent.map
        SendRec.channelId = [10, 11]
    ∧ (check_theta_one witnessEnv witnessStream
          (.online false)).stream.messagesCache.map DMessage.channelId
        = [10, 11] :=
  online_sends_one_per_deliverable_channel witnessEnv witnessStream false rfl
    (by
      intro cid hc
      exact ⟨⟨cid, 1⟩, rfl, rfl, rfl⟩)

/-- Counterexample to C1 as stated: with the shipped default guild settings
(mention_everyone true and the template key live_message_mention holding the
boolean true) and a subscription with one resolvable channel, an online
outcome sends zero messages instead of one: calling format on the boolean
template raises AttributeError, the per-subscription suppress block swallows
it and the whole channel loop is aborted. -/
def defaultEnv : BotEnv :=
  { getChannel := fun c => some ⟨c, 1⟩
    guildConf := fun _ => defaultGuildConf
    newMsgId := fun c => c + 1000 }

def defaultStream : ThetaStream :=
  { id := some "9", name := some "alice", channels := [5],
    messagesCache := [], type := "ThetaStream" }

theorem online_default_settings_counterexample :
    defaultStream.messagesCache = []
    ∧ defaultStream.channels.length = 1
    ∧ (check_theta_one defaultEnv defaultStream (.online false)).sent.length
        = 0
    ∧ (check_theta_one defaultEnv defaultStream
        (.online false)).stream.messagesCache.length = 0
    ∧ (check_theta_one defaultEnv defaultStream (.online false)).suppressed
        = true := by
  refine ⟨rfl, rfl, rfl, rfl, rfl⟩

/-- The format error paths on string templates, exercised: a no-mention
template naming the mention placeholder raises KeyError because theta.py
line 639 passes only the theta keyword; an unknown placeholder raises
KeyError; a stray closing brace raises ValueError; and a well-formed
mention-branch template composes. -/
theorem string_template_format_paths :
    pyFormat (resolveThetaField defaultStream)
        "{mention}, {theta.name} is live!" = Option.none
    ∧ pyFormat (resolveMentionField "@everyone" defaultStream)
        "{unknown} is live!" = Option.none
    ∧ pyFormat (resolveMentionField "@everyone" defaultStream)
        "stray \x7d brace" = Option.none
    ∧ pyFormat (resolveMentionField "@everyone" defaultStream)
        "{mention}, {theta.name} is live!"
      = some "@everyone, alice is live!" :=
  ⟨rfl, rfl, rfl, rfl⟩

/-- C2: an online outcome for a subscription whose message cache is already
non-empty changes nothing: no sends, no deletions, no save, and the
subscription state (channels and cache alike) is returned untouched
(theta.py lines 614 to 615). -/
theorem online_already_live_noop (env : BotEnv) (st : ThetaStream)
    (isRerun : Bool) (h : st.messagesCache ≠ []) :
    check_theta_one env st (.online isRerun) = ⟨st, [], [], 0, false⟩ := by
  cases hm : st.messagesCache with
  | nil => exact absurd hm h
  | cons m rest => simp [check_theta_one, hm]

def liveStream : ThetaStream :=
  { id := some "77", name := some "alice", channels := [10],
    messagesCache := [⟨500, 10, 1⟩], type := "ThetaStream" }

theorem online_already_live_noop_witness :
    check_theta_one witnessEnv liveStream (.online false)
      = ⟨liveStream, [], [], 0, false⟩ :=
  online_already_live_noop witnessEnv liveStream false (by decide)

/-- C3: on an offline outcome, a non-empty message cache leads to exactly
the cached messages whose guild enables autodelete being deleted, the cache
being cleared unconditionally and one save_theta call; an empty cache leads
to no deletion, no state change and no save (theta.py lines 603 to 612). -/
theorem offline_outcome_behavior (env : BotEnv) (st : ThetaStream) :
    (st.messagesCache ≠ [] →
      (∀ m ∈ st.messagesCache,
          (env.guildConf m.guildId).autodelete
            ↔ m ∈ (check_theta_one env st .offline).deleted)
      ∧ (check_theta_one env st .offline).stream.messagesCache = []
      ∧ (check_theta_one env st .offline).saves = 1)
    ∧ (st.messagesCache = [] →
      (check_theta_one env st .offline).deleted = []
      ∧ (check_theta_one env st .offline).stream = st
      ∧ (check_theta_one env st .offline).saves = 0) := by
  constructor
  · intro hne
    have hFalse : st.messagesCache.isEmpty = false := by
      cases hm : st.messagesCache with
      | nil => exact absurd hm hne
      | cons m rest => rfl
    refine ⟨?_, ?_, ?_⟩
    · intro m hm
      simp only [check_theta_one, hFalse, Bool.false_eq_true, if_false]
      constructor
      · intro had
        exact List.mem_filter.mpr ⟨hm, by simpa using had⟩
      · intro hmem
        simpa using (List.mem_filter.mp hmem).2
    · simp [check_theta_one, hFalse]
    · simp [check_theta_one, hFalse]
  · intro he
    simp [check_theta_one, he]

/-- Environment and state used by the offline witness: two cached messages,
one in a guild with autodelete enabled, one without. -/
def offlineEnv : BotEnv :=
  { getChannel := fun c => some ⟨c, 1⟩
    guildConf := fun g =>
      if g == 100 then { witnessConf with autodelete := true }
      else witnessConf
    newMsgId := fun c => c }

def offlineStream : ThetaStream :=
  { id := some "3", name := some "bob", channels := [10, 11],
    messagesCache := [⟨1, 10, 100⟩, ⟨2, 11, 200⟩], type := "ThetaStream" }

theorem offline_outcome_behavior_witness :
    (∀ m ∈ offlineStream.messagesCache,
        (offlineEnv.guildConf m.guildId).autodelete
          ↔ m ∈ (check_theta_one offlineEnv offlineStream .offline).deleted)
    ∧ (check_theta_one offlineEnv offlineStream
        .offline).stream.messagesCache = []
    ∧ (check_theta_one offlineEnv offlineStream .offline).saves = 1 :=
  (offline_outcome_behavior offlineEnv offlineStream).1 (by decide)

/-- The cached bearer token of the credential manager: the dictionary
ttv_bearer_cache is either empty or holds an access token together with the
absolute expiry timestamp computed at acquisition time (theta.py lines 156
to 157). -/
inductive BearerCache
  | empty
  | cached (access_token : String) (expires_at : Int)
  deriving Repr, DecidableEq

/-- maybe_renew_theta_bearer_token (theta.py lines 159 to 162), reduced to
whether the token-acquisition call get_theta_bearer_token is performed: only
when the cache dictionary is non-empty and its expiry is at most 60 seconds
away from now (a past expiry also qualifies).  An empty cache performs no
call. -/
def maybe_renew_theta_bearer_token (now : Int) : BearerCache → Bool
  | .empty => false
  | .cached _ exp => decide (exp - now ≤ 60)

/-- C7 (amended): a token-acquisition call is performed exactly when a token
is cached and its expiry is within 60 seconds of now; a token expiring 30
seconds out triggers the call, one expiring 300 seconds out does not, and an
empty cache never triggers the call from this operation (the initial
acquisition is issued separately during cog initialization). -/
theorem maybe_renew_behavior (now exp : Int) (tok : String) :
    (maybe_renew_theta_bearer_token now (.cached tok exp) = true
        ↔ exp - now ≤ 60)
    ∧ maybe_renew_theta_bearer_token now .empty = false
    ∧ maybe_renew_theta_bearer_token now (.cached tok (now + 30)) = true
    ∧ maybe_renew_theta_bearer_token now (.cached tok (now + 300)) = false := by
  refine ⟨by simp [maybe_renew_theta_bearer_token], rfl, ?_, ?_⟩
  · simp [maybe_renew_theta_bearer_token]
  · simp [maybe_renew_theta_bearer_token]

/-- Counterexample to C7 as stated: the claim asserts that an empty token
cache triggers a refresh attempt, but maybe_renew_theta_bearer_token guards
on the cache being non-empty first, so with an empty cache no acquisition
call is performed. -/
theorem maybe_renew_empty_cache_counterexample :
    maybe_renew_theta_bearer_token 0 BearerCache.empty = false := rfl

/-- The result of calling a Python function of the cog: a normal return or
an uncaught exception, identified by its exception class name. -/
inductive PyResult (α : Type)
  | ok (val : α)
  | exn (err : String)
  deriving Repr, DecidableEq

/-- check_name_or_id (theta.py lines 65 to 69).  Its first statement reads
self.yt_cid_pattern; no statement anywhere in the repository assigns that
attribute (the only occurrence of the name is the read on line 66), so every
call raises AttributeError before producing a boolean. -/
def check_name_or_id (data : String) : PyResult Bool :=
  PyResult.exn "AttributeError"

/-- get_theta (theta.py lines 555 to 570).  For the ThetaStream class the
matching branch calls check_name_or_id on the supplied name, and the
AttributeError it raises propagates; entries of other types fall through to
the name comparison.  A store with no entry of the requested type returns
None. -/
def get_theta (className name : String) :
    List ThetaStream → PyResult (Option ThetaStream)
  | [] => PyResult.ok Option.none
  | t :: rest =>
    if className == "ThetaStream" && t.type == className then
      match check_name_or_id name with
      | .exn e => .exn e
      | .ok b =>
        if b && ((t.name.map String.toLower) == some name.toLower) then
          .ok (some t)
        else if !b && (t.id == some name) then .ok (some t)
        else get_theta className name rest
    else if t.type == className
        && ((t.name.map String.toLower) == some name.toLower) then
      .ok (some t)
    else get_theta className name rest

/-- theta_alert (theta.py lines 333 to 369).  When get_theta raises, the
exception propagates.  When it finds a stream, line 369 evaluates the
unbound name stream (the local is named theta), raising NameError.  When no
stream is found and the class is ThetaStream, line 338 calls
check_name_or_id, whose AttributeError propagates; were classification to
succeed, lines 350 and 369 still read the unbound name stream. -/
def theta_alert (className name : String) (store : List ThetaStream) :
    PyResult Unit :=
  match get_theta className name store with
  | .exn e => .exn e
  | .ok (some _) => .exn "NameError"
  | .ok Option.none =>
    if className == "ThetaStream" then
      match check_name_or_id name with
      | .exn e => .exn e
      | .ok _ => .exn "NameError"
    else .exn "NameError"

/-- C10: the classifier always raises instead of returning a boolean, the
subscription lookup raises whenever it reaches the classification (that is,
whenever the store holds a ThetaStream entry), and the subscribe operation
always raises, so none of these operations completes. -/
theorem classifier_and_lookups_raise :
    (∀ data, ∃ e, check_name_or_id data = .exn e)
    ∧ (∀ (name : String) (store : List ThetaStream),
        (∃ t ∈ store, t.type = "ThetaStream") →
        ∃ e, get_theta "ThetaStream" name store = .exn e)
    ∧ (∀ (name : String) (store : List ThetaStream),
        ∃ e, theta_alert "ThetaStream" name store = .exn e) := by
  refine ⟨fun data => ⟨"AttributeError", rfl⟩, ?_, ?_⟩
  · intro name store h
    induction store with
    | nil => obtain ⟨t, ht, _⟩ := h; exact absurd ht (List.not_mem_nil t)
    | cons t rest ih =>
      by_cases hty : t.type = "ThetaStream"
      · refine ⟨"AttributeError", ?_⟩
        simp [get_theta, hty, check_name_or_id]
      · obtain ⟨u, hu, huty⟩ := h
        rcases List.mem_cons.mp hu with hut | hur
        · exact absurd (hut ▸ huty) hty
        · obtain ⟨e, he⟩ := ih ⟨u, hur, huty⟩
          refine ⟨e, ?_⟩
          have hty2 : (t.type == "ThetaStream") = false := by
            simpa using hty
          simp [get_theta, hty2, he]
  · intro name store
    cases hg : get_theta "ThetaStream" name store with
    | exn e => exact ⟨e, by simp [theta_alert, hg]⟩
    | ok o =>
      cases o with
      | none => exact ⟨"AttributeError", by simp [theta_alert, hg, check_name_or_id]⟩
      | some t => exact ⟨"NameError", by simp [theta_alert, hg]⟩

def witnessStoredStream : ThetaStream :=
  { id := some "123", name := some "alice", channels := [10],
    messagesCache := [], type := "ThetaStream" }

theorem classifier_and_lookups_raise_witness :
    (∃ e, check_name_or_id "alice" = .exn e)
    ∧ (∃ e, get_theta "ThetaStream" "alice" [witnessStoredStream] = .exn e)
    ∧ (∃ e, theta_alert "ThetaStream" "alice" [witnessStoredStream] = .exn e) :=
  ⟨classifier_and_lookups_raise.1 "alice",
   classifier_and_lookups_raise.2.1 "alice" [witnessStoredStream]
     ⟨witnessStoredStream, List.mem_singleton.mpr rfl, rfl⟩,
   classifier_and_lookups_raise.2.2 "alice" [witnessStoredStream]⟩

/-- add_or_remove (theta.py lines 533 to 553).  The parameter is named
stream but every statement of the body refers to the name theta, which is
bound neither locally, nor as a module global, nor on the class; the very
first statement (the membership test on line 534) therefore raises
NameError, and the store is never changed and nothing is saved. -/
def add_or_remove (ctxChannelId : Nat) (strm : ThetaStream)
    (store : List ThetaStream) : PyResult (List ThetaStream) :=
  PyResult.exn "NameError"

/-- C5 (code bug): the subscribe toggle never completes: every invocation of
add_or_remove raises NameError on its first statement, for any channel, any
stream and any store state, so a first call adds nothing and a second call
cannot remove anything. -/
theorem add_or_remove_always_raises (ctxChannelId : Nat)
    (strm : ThetaStream) (store : List ThetaStream) :
    add_or_remove ctxChannelId strm store = PyResult.exn "NameError" := rfl

/-- One iteration step of a Python for loop over a list that the body itself
shrinks with list.remove: the iterator keeps a cursor i, reads the element
at i, removes the first occurrence of it when the branch fires (so the
element after the removed one is skipped), and advances the cursor.  The
fuel argument only bounds the recursion; the loop exits by itself once the
cursor reaches the current length, which happens within length-many steps. -/
def pyIterRemove (ctxCh : Nat) (removeAll : Bool) :
    Nat → List Nat → Nat → List Nat
  | 0, lst, _ => lst
  | fuel + 1, lst, i =>
    if h : i < lst.length then
      let x := lst.get ⟨i, h⟩
      let lst2 :=
        if x == ctxCh then lst.erase x
        else if removeAll && lst.contains x then lst.erase x
        else lst
      pyIterRemove ctxCh removeAll fuel lst2 (i + 1)
    else lst

/-- The inner loop of thetaalert_stop over one subscription channel list
(theta.py lines 287 to 292): removes the invoking channel id, and with the
all flag set (and the invoking channel belonging to the guild) removes every
channel id, subject to the skip-after-remove behavior of mutating the list
being iterated. -/
def channelsAfterStop (ctxCh : Nat) (removeAll : Bool) (lst : List Nat) :
    List Nat :=
  pyIterRemove ctxCh removeAll lst.length lst 0

/-- The observable end state of a thetaalert_stop invocation.  attrError:
the to_remove list was non-empty, and its first element was sent the
attribute lookup remove (theta.py line 298), which a Theta object does not
have, so AttributeError is raised; the store list object is unchanged but
its subscription objects carry the mutated channel lists.  typeError: no
subscription emptied, so line 300 rebound the store attribute to the last
iterated subscription object (the loop variable), and save_theta then raised
TypeError iterating that non-list; the last subscription is recorded.  ok:
the store was empty, so the loop never ran and the copied empty list was
stored back. -/
inductive StopOutcome
  | ok (store : List ThetaStream)
  | attrError (store : List ThetaStream)
  | typeError (lastBound : ThetaStream)
  deriving Repr, DecidableEq

/-- thetaalert_stop (theta.py lines 274 to 308): copies the store, removes
the invoking channel (or with the all flag every guild channel) from each
subscription channel list while iterating it, collects the subscriptions
whose channel list emptied, and then crashes: line 298 calls remove on a
subscription object (and references the unbound name stream), and line 300
assigns the loop variable rather than a list to the store attribute. -/
def thetaalert_stop (ctxCh : Nat) (localIds : List Nat) (allFlag : Bool)
    (store : List ThetaStream) : StopOutcome :=
  let removeAll := allFlag && localIds.contains ctxCh
  let processed := store.map fun s =>
    { s with channels := channelsAfterStop ctxCh removeAll s.channels }
  let toRemove := processed.filter fun s => s.channels.isEmpty
  if toRemove.isEmpty then
    match processed.getLast? with
    | Option.none => .ok []
    | some last => .typeError last
  else .attrError processed

def c4Sub : ThetaStream :=
  { id := some "1", name := some "alice", channels := [42],
    messagesCache := [], type := "ThetaStream" }

def c4SubAfter : ThetaStream :=
  { id := some "1", name := some "alice", channels := [],
    messagesCache := [], type := "ThetaStream" }

/-- C4 (code bug): a channel-scoped bulk unsubscribe on a store holding one
subscription whose only channel is the invoking channel empties that
subscription channel list, then raises AttributeError at the removal step,
leaving the store containing a subscription with an empty channels list:
the empty-channels invariant is violated by a mutating store operation. -/
theorem thetaalert_stop_leaves_empty_subscription :
    thetaalert_stop 42 [42] false [c4Sub] = StopOutcome.attrError [c4SubAfter]
    ∧ c4SubAfter.channels = [] := by
  exact ⟨by decide, rfl⟩

/-- A Python value as it appears in the serialized subscription blob: the
primitives the export produces and the load consumes. -/
inductive PyVal
  | null
  | bool (b : Bool)
  | num (n : Nat)
  | str (s : String)
  | list (items : List PyVal)
  | dict (items : List (String × PyVal))

/-- Python dictionary key lookup over an association list in insertion
order. -/
def lookupKV : List (String × PyVal) → String → Option PyVal
  | [], _ => Option.none
  | (k, v) :: rest, key => if k == key then some v else lookupKV rest key

/-- Python str.startswith applied to the single-character prefix used by
export: true exactly when the first character is an underscore. -/
def keyIsPrivate (k : String) : Bool :=
  match k.data with
  | [] => false
  | c :: _ => c == '_'

/-- The value stored for an optional string attribute. -/
def optStrVal : Option String → PyVal
  | Option.none => PyVal.null
  | some s => PyVal.str s

/-- The instance dictionary of a ThetaStream object in attribute insertion
order (thetatypes.py lines 68 to 72 then 38 to 43): id, _client_id,
_bearer, name, channels, _messages_cache, type. -/
def instanceDict (s : ThetaStream) (clientId bearer : PyVal) :
    List (String × PyVal) :=
  [("id", optStrVal s.id),
   ("_client_id", clientId),
   ("_bearer", bearer),
   ("name", optStrVal s.name),
   ("channels", PyVal.list (s.channels.map PyVal.num)),
   ("_messages_cache", PyVal.list []),
   ("type", PyVal.str s.type)]

/-- export (thetatypes.py lines 51 to 59): copies every attribute whose name
does not start with an underscore (so the credential attributes _client_id
and _bearer and the live message cache are excluded), then adds the messages
key holding the channel id and message id of each cached message.  The
placeholder stored for _messages_cache in the instance dictionary never
survives the filter. -/
def ThetaStream.export (s : ThetaStream) (clientId bearer : PyVal) :
    List (String × PyVal) :=
  (instanceDict s clientId bearer).filter (fun kv => !keyIsPrivate kv.1)
    ++ [("messages", PyVal.list (s.messagesCache.map fun m =>
          PyVal.dict [("channel", PyVal.num m.channelId),
                      ("message", PyVal.num m.id)]))]

/-- A persisted posted-message reference: the channel id and message id
pair. -/
structure MsgRef where
  channel : Nat
  message : Nat
  deriving Repr, DecidableEq

/-- Reading the id or name keyword back in the constructor: a missing key or
a stored None gives None, a stored string gives the string. -/
def decodeOptStr : Option PyVal → Option String
  | some (.str s) => some s
  | _ => Option.none

/-- Reading the channels keyword back in the constructor. -/
def decodeChannels : Option PyVal → List Nat
  | some (.list l) => l.filterMap fun v =>
      match v with
      | .num n => some n
      | _ => Option.none
  | _ => []

/-- Reading the raw messages list of the persisted blob. -/
def decodeRefs : Option PyVal → List MsgRef
  | some (.list l) => l.filterMap fun v =>
      match v with
      | .dict d =>
        match lookupKV d "channel", lookupKV d "message" with
        | some (.num c), some (.num m) => some ⟨c, m⟩
        | _, _ => Option.none
      | _ => Option.none
  | _ => []

/-- The chat-platform environment load_theta runs against: channel
resolution and message fetch (a fetch returning none stands for the
discord.HTTPException branch, theta.py lines 700 to 707). -/
structure LoadEnv where
  getChannel : Nat → Option DChannel
  fetchMessage : Nat → Nat → Option DMessage

/-- The restoration of one persisted message reference (theta.py lines 699
to 707): the channel must still resolve through bot.get_channel and the
fetch must succeed, otherwise the reference is silently dropped. -/
def restoreRef (env : LoadEnv) (r : MsgRef) : Option DMessage :=
  match env.getChannel r.channel with
  | Option.none => Option.none
  | some _ => env.fetchMessage r.channel r.message

/-- The per-entry body of load_theta (theta.py lines 691 to 717) for one raw
serialized subscription: a type key naming the ThetaStream class selects the
class (any other value is skipped with continue or is outside the modelled
scope); each persisted message reference whose channel still resolves and
whose fetch succeeds is restored into the message cache, the others are
silently dropped; the remaining keywords repopulate the fields, and the
token and bearer keywords set only the private credential attributes, which
are outside the state record. -/
def load_theta_one (env : LoadEnv) (raw : List (String × PyVal))
    (token bearer : Option String) : Option ThetaStream :=
  match lookupKV raw "type" with
  | some (.str "ThetaStream") =>
    let refs := decodeRefs (lookupKV raw "messages")
    let cache := refs.filterMap (restoreRef env)
    some { id := decodeOptStr (lookupKV raw "id")
           name := decodeOptStr (lookupKV raw "name")
           channels := decodeChannels (lookupKV raw "channels")
           messagesCache := cache
           type := "ThetaStream" }
  | _ => Option.none

theorem export_eq (s : ThetaStream) (clientId bearer : PyVal) :
    ThetaStream.export s clientId bearer =
      [("id", optStrVal s.id),
       ("name", optStrVal s.name),
       ("channels", PyVal.list (s.channels.map PyVal.num)),
       ("type", PyVal.str s.type),
       ("messages", PyVal.list (s.messagesCache.map fun m =>
          PyVal.dict [("channel", PyVal.num m.channelId),
                      ("message", PyVal.num m.id)]))] := rfl

theorem decodeChannels_roundtrip (l : List Nat) :
    decodeChannels (some (PyVal.list (l.map PyVal.num))) = l := by
  induction l with
  | nil => rfl
  | cons n rest ih =>
    simp only [decodeChannels, List.map_cons, List.filterMap_cons] at *
    rw [ih]

theorem decodeRefs_roundtrip (l : List DMessage) :
    decodeRefs (some (PyVal.list (l.map fun m =>
        PyVal.dict [("channel", PyVal.num m.channelId),
                    ("message", PyVal.num m.id)])))
      = l.map fun m => MsgRef.mk m.channelId m.id := by
  induction l with
  | nil => rfl
  | cons m rest ih =>
    exact congrArg (fun l => MsgRef.mk m.channelId m.id :: l) ih

theorem cache_restore_of_resolvable (env : LoadEnv) (l : List DMessage)
    (h : ∀ m ∈ l, (env.getChannel m.channelId).isSome = true
        ∧ env.fetchMessage m.channelId m.id = some m) :
    ((l.map fun m => MsgRef.mk m.channelId m.id).filterMap (restoreRef env))
      = l := by
  induction l with
  | nil => rfl
  | cons m rest ih =>
    obtain ⟨hch, hfm⟩ := h m (List.mem_cons_self m rest)
    obtain ⟨ch, hch2⟩ := Option.isSome_iff_exists.mp hch
    have hrest := ih (fun x hx => h x (List.mem_cons_of_mem m hx))
    simp only [List.map_cons, List.filterMap_cons, restoreRef, hch2, hfm,
      hrest]

theorem load_theta_one_export (env : LoadEnv) (sid snm : Option String)
    (sch : List Nat) (smc : List DMessage) (clientId bearer : PyVal)
    (token bearerTok : Option String) :
    load_theta_one env
        (ThetaStream.export ⟨sid, snm, sch, smc, "ThetaStream"⟩ clientId
          bearer) token bearerTok
      = some { id := sid, name := snm, channels := sch,
               messagesCache := (smc.map fun m =>
                   MsgRef.mk m.channelId m.id).filterMap (restoreRef env),
               type := "ThetaStream" } := by
  have h1 : decodeOptStr (some (optStrVal sid)) = sid := by
    cases sid <;> rfl
  have h2 : decodeOptStr (some (optStrVal snm)) = snm := by
    cases snm <;> rfl
  show some
      ({ id := decodeOptStr (some (optStrVal sid)),
         name := decodeOptStr (some (optStrVal snm)),
         channels := decodeChannels (some (PyVal.list (sch.map PyVal.num))),
         messagesCache := (decodeRefs (some (PyVal.list (smc.map fun m =>
             PyVal.dict [("channel", PyVal.num m.channelId),
                         ("message", PyVal.num m.id)])))).filterMap
           (restoreRef env),
         type := "ThetaStream" } : ThetaStream)
    = some ({ id := sid, name := snm, channels := sch,
              messagesCache := (smc.map fun m =>
                  MsgRef.mk m.channelId m.id).filterMap (restoreRef env),
              type := "ThetaStream" } : ThetaStream)
  rw [h1, h2, decodeChannels_roundtrip, decodeRefs_roundtrip]

/-- C6 (amended): serializing a subscription and loading the result back
yields a subscription with the same id, the same name and the same channel
list, and the serialized form holds exactly the keys id, name, channels,
type and messages, so in particular no token or bearer field; the
posted-message reference list is preserved provided every persisted
reference still resolves, meaning its channel is known to the bot and the
message fetch succeeds (unresolvable references are silently dropped at
load). -/
theorem export_load_roundtrip (env : LoadEnv) (s : ThetaStream)
    (clientId bearer : PyVal) (token bearerTok : Option String)
    (hty : s.type = "ThetaStream")
    (hres : ∀ m ∈ s.messagesCache,
        (env.getChannel m.channelId).isSome = true
        ∧ env.fetchMessage m.channelId m.id = some m) :
    (ThetaStream.export s clientId bearer).map Prod.fst
        = ["id", "name", "channels", "type", "messages"]
    ∧ load_theta_one env (ThetaStream.export s clientId bearer) token
        bearerTok
      = some { id := s.id, name := s.name, channels := s.channels,
               messagesCache := s.messagesCache, type := "ThetaStream" } := by
  constructor
  · rw [export_eq]; rfl
  · obtain ⟨sid, snm, sch, smc, sty⟩ := s
    have hty2 : sty = "ThetaStream" := hty
    subst hty2
    rw [load_theta_one_export, cache_restore_of_resolvable env smc hres]

def roundtripEnv : LoadEnv :=
  { getChannel := fun c => some ⟨c, 1⟩
    fetchMessage := fun c m => some ⟨m, c, 1⟩ }

def roundtripStream : ThetaStream :=
  { id := some "123", name := some "alice", channels := [10, 11],
    messagesCache := [⟨7, 10, 1⟩], type := "ThetaStream" }

theorem export_load_roundtrip_witness :
    (ThetaStream.export roundtripStream PyVal.null PyVal.null).map Prod.fst
        = ["id", "name", "channels", "type", "messages"]
    ∧ load_theta_one roundtripEnv
        (ThetaStream.export roundtripStream PyVal.null PyVal.null)
        Option.none Option.none
      = some { id := roundtripStream.id, name := roundtripStream.name,
               channels := roundtripStream.channels,
               messagesCache := roundtripStream.messagesCache,
               type := "ThetaStream" } :=
  export_load_roundtrip roundtripEnv roundtripStream PyVal.null PyVal.null
    Option.none Option.none rfl
    (by
      intro m hm
      refine ⟨rfl, ?_⟩
      have hm2 : m = (⟨7, 10, 1⟩ : DMessage) := by
        simpa [roundtripStream] using hm
      rw [hm2]; rfl)

/-- Counterexample to C6 as stated: loading depends on the chat platform
still resolving every persisted reference.  In an environment where the
referenced channel no longer resolves, the loaded subscription has an empty
posted-message list while the original had one reference, so the
posted-message reference lists are not equal. -/
def goneEnv : LoadEnv :=
  { getChannel := fun _ => Option.none
    fetchMessage := fun _ _ => Option.none }

theorem export_load_dropped_reference_counterexample :
    (load_theta_one goneEnv
        (ThetaStream.export roundtripStream PyVal.null PyVal.null)
        Option.none Option.none).map (fun s => s.messagesCache)
      = some []
    ∧ roundtripStream.messagesCache ≠ [] := by
  exact ⟨rfl, by decide⟩

/-- The result of awaiting one secondary HTTP lookup inside is_online: the
json call either raises (transport error or non-json body, nothing in the
source catches it) or yields a decoded value. -/
inductive HttpResult
  | exn
  | json (v : PyVal)

/-- Python truthiness of an optional string (None and the empty string are
falsy). -/
def strOptTruthy : Option String → Bool
  | Option.none => false
  | some s => !(s == "")

/-- Python truthiness of a decoded json value. -/
def PyVal.truthy : PyVal → Bool
  | .null => false
  | .bool b => b
  | .num n => !(n == 0)
  | .str s => !(s == "")
  | .list l => !l.isEmpty
  | .dict l => !l.isEmpty

/-- Python subscripting v[k] on a decoded json value: KeyError when the key
is missing, TypeError when the value is not a dictionary. -/
def PyVal.getItem : PyVal → String → Except String PyVal
  | .dict l, k =>
    match lookupKV l k with
    | some v => .ok v
    | Option.none => .error "KeyError"
  | _, _ => .error "TypeError"

/-- Python subscripting v[i] on a decoded json value: IndexError past the
end, TypeError when the value is not a list. -/
def PyVal.index : PyVal → Nat → Except String PyVal
  | .list l, i =>
    match l.get? i with
    | some v => .ok v
    | Option.none => .error "IndexError"
  | _, _ => .error "TypeError"

/-- The fields of one record of the primary live-status data array that
is_online and make_embed read.  The primary response is assumed to follow
the platform schema for these fields; the secondary responses are kept as
raw json values because their shape is exactly what the enrichment claims
are about. -/
structure StreamRecord where
  user_name : String
  type : String
  title : String
  game_id : Option String
  thumbnail_url : Option String
  deriving Repr, DecidableEq

/-- The primary live-status response: HTTP 200 with the decoded data array,
or a non-200 status code (the source checks 200 first, so the err
constructor only carries codes other than 200). -/
inductive PrimaryResp
  | ok (data : List StreamRecord)
  | err (code : Nat)

/-- The network environment of one is_online call: the primary live-status
response and the three secondary enrichment responses (category lookup,
follower-count lookup, profile lookup).  The name-to-id resolution step
(fetch_id) is upstream of everything the claims mention and is modelled as
already done. -/
structure ApiEnv where
  primary : PrimaryResp
  gameResp : HttpResult
  followerResp : HttpResult
  profileResp : HttpResult

/-- The enrichment fields the online branch adds to the primary record,
initialized to None before the secondary lookups run (thetatypes.py lines
92 to 95). -/
structure Enrichment where
  game_name : PyVal
  followers : PyVal
  view_count : PyVal
  profile_image_url : PyVal

def initEnrichment : Enrichment := ⟨.null, .null, .null, .null⟩

/-- The category lookup (thetatypes.py lines 97 to 107): only issued when
game_id is truthy; an exception from the request propagates; a falsy
response body is skipped; a truthy body is drilled into with data, index 0
and name, and any shape mismatch raises. -/
def enrichGame (resp : HttpResult) (gid : Option String) (e : Enrichment) :
    Except String Enrichment :=
  if strOptTruthy gid then
    match resp with
    | .exn => .error "ClientError"
    | .json v =>
      if v.truthy then
        match v.getItem "data" with
        | .error err => .error err
        | .ok arr =>
          match arr.index 0 with
          | .error err => .error err
          | .ok g0 =>
            match g0.getItem "name" with
            | .error err => .error err
            | .ok nm => .ok { e with game_name := nm }
      else .ok e
  else .ok e

/-- The follower-count lookup (thetatypes.py lines 108 to 116): always
issued; an exception propagates; a falsy body is skipped (followers stays
None); a truthy body must hold the total key. -/
def enrichFollowers (resp : HttpResult) (e : Enrichment) :
    Except String Enrichment :=
  match resp with
  | .exn => .error "ClientError"
  | .json v =>
    if v.truthy then
      match v.getItem "total" with
      | .error err => .error err
      | .ok t => .ok { e with followers := t }
    else .ok e

/-- The profile lookup (thetatypes.py lines 118 to 127): always issued; an
exception propagates; a falsy body is skipped; a truthy body is drilled
into with data, index 0, profile_image_url and view_count. -/
def enrichProfile (resp : HttpResult) (e : Enrichment) :
    Except String Enrichment :=
  match resp with
  | .exn => .error "ClientError"
  | .json v =>
    if v.truthy then
      match v.getItem "data" with
      | .error err => .error err
      | .ok arr =>
        match arr.index 0 with
        | .error err => .error err
        | .ok u0 =>
          match u0.getItem "profile_image_url" with
          | .error err => .error err
          | .ok p =>
            match u0.getItem "view_count" with
            | .error err => .error err
            | .ok vc => .ok { e with profile_image_url := p, view_count := vc }
    else .ok e

/-- Modelled behavior of the external framework helper humanize_number used
by make_embed: renders an integer (booleans count as integers in Python);
every other value, None in particular, raises TypeError.  The thousands
separator formatting is abstracted into the plain decimal text since no
claim inspects the rendered digits. -/
def humanize_number : PyVal → Except String String
  | .num n => .ok (toString n)
  | .bool b => .ok (if b then "1" else "0")
  | _ => .error "TypeError"

/-- The url helper rnd appends a random anti-cache parameter; the random
letters are external and fixed here. -/
def rndUrl (url : String) : String := url ++ "?rnd=abcdef"

/-- The notification payload make_embed builds (thetatypes.py lines 160 to
180): title, stream url, author, the two rendered numeric stat fields, the
thumbnail value, the optional image and the optional footer. -/
structure Embed where
  title : String
  url : String
  author : String
  followersText : String
  viewsText : String
  thumbnail : PyVal
  image : Option String
  footer : Option String

/-- make_embed (thetatypes.py lines 160 to 180): computes the rerun marker
from the record type, substitutes a placeholder profile image for None,
titles an empty title Untitled broadcast and appends the rerun marker,
renders the two numeric stat fields with humanize_number (raising on the
None defaults left by skipped enrichment), attaches the anti-cached
thumbnail image when present, and adds a Playing footer only when game_name
is truthy (string concatenation raises on a truthy non-string). -/
def make_embed (rec : StreamRecord) (e : Enrichment) : Except String Embed :=
  let is_rerun := rec.type == "rerun"
  let url := "https://www.theta.tv/" ++ rec.user_name
  let logo := match e.profile_image_url with
    | .null => PyVal.str "https://user-slivertv.imgix.net/default_profile.jpg?w=56"
    | v => v
  let status0 := if rec.title == "" then "Untitled broadcast" else rec.title
  let status := if is_rerun then status0 ++ " - Rerun" else status0
  match humanize_number e.followers with
  | .error err => .error err
  | .ok followersText =>
    match humanize_number e.view_count with
    | .error err => .error err
    | .ok viewsText =>
      let image := if strOptTruthy rec.thumbnail_url then
          some (rndUrl (((optStr rec.thumbnail_url).replace "{width}"
            "320").replace "{height}" "180"))
        else Option.none
      if e.game_name.truthy then
        match e.game_name with
        | .str s =>
          .ok ⟨status, url, rec.user_name, followersText, viewsText, logo,
            image, some ("Playing: " ++ s)⟩
        | _ => .error "TypeError"
      else
        .ok ⟨status, url, rec.user_name, followersText, viewsText, logo,
          image, Option.none⟩

/-- The outcome of one is_online call: the online tuple of payload and rerun
flag, one of the four raised error classes of the source taxonomy, or an
uncaught Python exception from the enrichment or rendering code. -/
inductive CheckResult
  | online (e : Embed) (isRerun : Bool)
  | offlineStream
  | streamNotFound
  | invalidCredentials
  | apiError
  | pyError (msg : String)

/-- is_online (thetatypes.py lines 74 to 136): a non-200 primary status maps
to the error taxonomy (400 invalid credentials, 404 not found, otherwise
APIError); an empty data array raises OfflineStream; otherwise the first
record is enriched by the three secondary lookups in order and rendered, and
the function returns the payload together with the rerun flag, which line
129 hardcodes to False regardless of the record type. -/
def is_online (env : ApiEnv) : CheckResult :=
  match env.primary with
  | .err 400 => .invalidCredentials
  | .err 404 => .streamNotFound
  | .err _ => .apiError
  | .ok [] => .offlineStream
  | .ok (rec :: _) =>
    match enrichGame env.gameResp rec.game_id initEnrichment with
    | .error msg => .pyError msg
    | .ok e1 =>
      match enrichFollowers env.followerResp e1 with
      | .error msg => .pyError msg
      | .ok e2 =>
        match enrichProfile env.profileResp e2 with
        | .error msg => .pyError msg
        | .ok e3 =>
          match make_embed rec e3 with
          | .error msg => .pyError msg
          | .ok embed => .online embed false

def CheckResult.rerunFlag : CheckResult → Option Bool
  | .online _ r => some r
  | _ => Option.none

def CheckResult.embedTitle : CheckResult → Option String
  | .online e _ => some e.title
  | _ => Option.none

theorem enrichGame_falsy (gid : Option String) (v : PyVal)
    (hvt : v.truthy = false) (e : Enrichment) :
    enrichGame (.json v) gid e = .ok e := by
  cases h : strOptTruthy gid <;> simp [enrichGame, h, hvt]

theorem enrichGame_exn (gid : Option String) (hg : strOptTruthy gid = true)
    (e : Enrichment) :
    enrichGame .exn gid e = .error "ClientError" := by
  simp [enrichGame, hg]

theorem enrichFollowers_good (v : PyVal) (n : Nat) (hvt : v.truthy = true)
    (htot : v.getItem "total" = .ok (.num n)) (e : Enrichment) :
    enrichFollowers (.json v) e = .ok { e with followers := .num n } := by
  simp [enrichFollowers, hvt, htot]

theorem enrichProfile_good (v arr u p : PyVal) (n : Nat)
    (hvt : v.truthy = true) (hdat : v.getItem "data" = .ok arr)
    (hidx : arr.index 0 = .ok u)
    (hpij : u.getItem "profile_image_url" = .ok p)
    (hvc : u.getItem "view_count" = .ok (.num n)) (e : Enrichment) :
    enrichProfile (.json v) e
      = .ok { e with profile_image_url := p, view_count := .num n } := by
  simp [enrichProfile, hvt, hdat, hidx, hpij, hvc]

theorem make_embed_null_game (rec : StreamRecord) (p : PyVal) (n m : Nat) :
    ∃ em, make_embed rec ⟨.null, .num n, .num m, p⟩ = .ok em
      ∧ em.footer = Option.none :=
  ⟨_, rfl, rfl⟩

/-- A follower-count response shape on which the source code completes: a
truthy body holding a numeric total. -/
def followerRespGood (r : HttpResult) : Prop :=
  ∃ v n, r = .json v ∧ v.truthy = true
    ∧ v.getItem "total" = Except.ok (.num n)

/-- A profile response shape on which the source code completes: a truthy
body whose data array has a first entry with a profile_image_url value and
a numeric view_count. -/
def profileRespGood (r : HttpResult) : Prop :=
  ∃ v arr u p n, r = .json v ∧ v.truthy = true
    ∧ v.getItem "data" = Except.ok arr
    ∧ arr.index 0 = Except.ok u
    ∧ u.getItem "profile_image_url" = Except.ok p
    ∧ u.getItem "view_count" = Except.ok (.num n)

/-- C9 (amended): when the primary liveness query reports a live stream,
an empty (falsy) category-lookup response degrades the payload without
failing the check: the result is still Online, with no Playing footer.  But
secondary-lookup failures are not caught anywhere: an exception raised by a
secondary request (the category lookup of scenario B here) escalates and
the whole check fails instead of returning Online. -/
theorem secondary_lookup_degradation
    (envA envB : ApiEnv) (recA recB : StreamRecord)
    (restA restB : List StreamRecord)
    (hpA : envA.primary = .ok (recA :: restA))
    (hgA : ∃ v, envA.gameResp = .json v ∧ v.truthy = false)
    (hfA : followerRespGood envA.followerResp)
    (hprA : profileRespGood envA.profileResp)
    (hpB : envB.primary = .ok (recB :: restB))
    (hgB : strOptTruthy recB.game_id = true)
    (hxB : envB.gameResp = .exn) :
    (∃ e, is_online envA = .online e false ∧ e.footer = Option.none)
    ∧ is_online envB = .pyError "ClientError" := by
  obtain ⟨gv, hgv, hgvt⟩ := hgA
  obtain ⟨fv, n, hfv, hft, htot⟩ := hfA
  obtain ⟨pv, arr, u, p, m, hpv, hpt, hdat, hidx, hpij, hvc⟩ := hprA
  constructor
  · have h1 : enrichGame envA.gameResp recA.game_id initEnrichment
        = .ok initEnrichment := by
      rw [hgv]; exact enrichGame_falsy recA.game_id gv hgvt initEnrichment
    have h2 : enrichFollowers envA.followerResp initEnrichment
        = .ok ⟨.null, .num n, .null, .null⟩ := by
      rw [hfv]; exact enrichFollowers_good fv n hft htot initEnrichment
    have h3 : enrichProfile envA.profileResp ⟨.null, .num n, .null, .null⟩
        = .ok ⟨.null, .num n, .num m, p⟩ := by
      rw [hpv]
      exact enrichProfile_good pv arr u p m hpt hdat hidx hpij hvc
        ⟨.null, .num n, .null, .null⟩
    obtain ⟨em, hem, hfoot⟩ := make_embed_null_game recA p n m
    refine ⟨em, ?_, hfoot⟩
    simp only [is_online, hpA, h1, h2, h3, hem]
  · have hB1 : enrichGame envB.gameResp recB.game_id initEnrichment
        = .error "ClientError" := by
      rw [hxB]; exact enrichGame_exn recB.game_id hgB initEnrichment
    simp only [is_online, hpB, hB1]

def c9goodRec : StreamRecord :=
  { user_name := "alice", type := "live", title := "Playing",
    game_id := some "g1", thumbnail_url := Option.none }

def c9profileVal : PyVal :=
  .dict [("data", .list
    [.dict [("profile_image_url", .null), ("view_count", .num 9)]])]

def c9envA : ApiEnv :=
  { primary := .ok [c9goodRec], gameResp := .json (.dict []),
    followerResp := .json (.dict [("total", .num 5)]),
    profileResp := .json c9profileVal }

def c9envB : ApiEnv :=
  { primary := .ok [c9goodRec], gameResp := .exn,
    followerResp := .json (.dict [("total", .num 5)]),
    profileResp := .json c9profileVal }

theorem secondary_lookup_degradation_witness :
    (∃ e, is_online c9envA = .online e false ∧ e.footer = Option.none)
    ∧ is_online c9envB = CheckResult.pyError "ClientError" :=
  secondary_lookup_degradation c9envA c9envB c9goodRec c9goodRec [] [] rfl
    ⟨.dict [], rfl, rfl⟩
    ⟨.dict [("total", .num 5)], 5, rfl, rfl, rfl⟩
    ⟨c9profileVal,
      .list [.dict [("profile_image_url", .null), ("view_count", .num 9)]],
      .dict [("profile_image_url", .null), ("view_count", .num 9)],
      .null, 9, rfl, rfl, rfl, rfl, rfl, rfl⟩
    rfl rfl rfl

/-- Counterexample to C9 as stated: the primary query reports a live
stream, but the follower-count request raises; nothing in is_online catches
it, so the whole check fails with the propagated exception instead of
returning Online with a defaulted follower field. -/
def c9rec : StreamRecord :=
  { user_name := "alice", type := "live", title := "Playing",
    game_id := Option.none, thumbnail_url := Option.none }

def c9failEnv : ApiEnv :=
  { primary := .ok [c9rec], gameResp := .json .null,
    followerResp := .exn, profileResp := .json .null }

theorem follower_lookup_failure_fails_check :
    c9failEnv.primary = PrimaryResp.ok [c9rec]
    ∧ is_online c9failEnv = CheckResult.pyError "ClientError" := ⟨rfl, rfl⟩

def c8rec : StreamRecord :=
  { user_name := "alice", type := "rerun", title := "Playing",
    game_id := Option.none, thumbnail_url := Option.none }

def c8profileVal : PyVal :=
  .dict [("data", .list
    [.dict [("profile_image_url", .null), ("view_count", .num 7)]])]

def c8env : ApiEnv :=
  { primary := .ok [c8rec], gameResp := .json .null,
    followerResp := .json (.dict [("total", .num 0)]),
    profileResp := .json c8profileVal }

def c8conf : GuildConf :=
  { autodelete := false
    mention_everyone := false
    mention_here := false
    live_message_mention := .bool true
    live_message_nomention := .bool false
    ignore_reruns := true
    roles := [] }

def c8botEnv : BotEnv :=
  { getChannel := fun c => some ⟨c, 1⟩
    guildConf := fun _ => c8conf
    newMsgId := fun c => c + 1 }

def c8stream : ThetaStream :=
  { id := some "5", name := some "alice", channels := [3],
    messagesCache := [], type := "ThetaStream" }

/-- C8 (code bug): the platform reports the broadcast as a rerun (the
record type is rerun, and make_embed itself marks the title with the rerun
suffix), yet is_online returns the hardcoded rerun flag False (thetatypes.py
line 129); consequently in a guild with ignore-reruns enabled the polling
loop still sends the alert, because the rerun filter only sees the False
flag. -/
theorem rerun_flag_hardcoded_false :
    c8rec.type = "rerun"
    ∧ (is_online c8env).rerunFlag = some false
    ∧ (is_online c8env).embedTitle = some "Playing - Rerun"
    ∧ (c8botEnv.guildConf 1).ignore_reruns = true
    ∧ (check_theta_one c8botEnv c8stream (Outcome.online false)).sent.length
        = 1 :=
  ⟨rfl, rfl, rfl, rfl, rfl⟩
